import Mathlib

/-!
Verification of the real-time presence and location broadcast engine of the
findmyjowa repository (a Next.js GPS tracker backed by Supabase and
Socket.IO).  The definitions below are shallow embeddings of the JavaScript
source: times are rational numbers of milliseconds (JavaScript `Date.now()`
values), database rows are Lean structures, the Socket.IO room named
`global` and the rooms named `user-$\x7bid\x7d` are the two constructors of
an inductive `Room` type, and each socket handler is a pure function from
its inputs (including the outcome of every storage call it performs) to the
updated table states and the list of events it emitted.
-/

namespace FindMyJowa

/-- Derived liveness label of a device (spec §4.2): `fresh`, `stale` or
`offline`.  In `MapComponent.js` these are rendered as the green, yellow
and red marker colours. -/
inductive PresenceClass where
  | fresh
  | stale
  | offline
deriving DecidableEq

/-- Presence classification from `src/components/MapComponent.js`
lines 453-465.  `lastSeen` and `now` are millisecond timestamps; the code
computes `timeDiff = (now - lastUpdate) / 1000 / 60` minutes and colours
the marker green (`fresh`) when `is_online && timeDiff < 5`, yellow
(`stale`) when `is_online && timeDiff < 30`, red (`offline`) otherwise.
A missing timestamp gives `NaN`, whose comparisons are all false in
JavaScript, hence `offline`. -/
def classify (is_online : Bool) (lastSeen : Option ℚ) (now : ℚ) : PresenceClass :=
  match lastSeen with
  | none => PresenceClass.offline
  | some lastUpdate =>
    let timeDiff : ℚ := (now - lastUpdate) / 1000 / 60
    if is_online ∧ timeDiff < 5 then PresenceClass.fresh
    else if is_online ∧ timeDiff < 30 then PresenceClass.stale
    else PresenceClass.offline


/-- C2: for every onlineFlag, lastSeen and now with lastSeen ≤ now, the
classifier returns `offline` when the flag is false or lastSeen is null;
`fresh` when the flag is true and now − lastSeen < 5 minutes; `stale` when
the flag is true and 5 minutes ≤ now − lastSeen < 30 minutes; and `offline`
when the flag is true and now − lastSeen ≥ 30 minutes. -/
theorem classify_cases (b : Bool) (lastSeen : Option ℚ) (now : ℚ)
    (hle : ∀ t, lastSeen = some t → t ≤ now) :
    ((b = false ∨ lastSeen = none) → classify b lastSeen now = PresenceClass.offline) ∧
    (∀ t, lastSeen = some t → b = true →
      (now - t < 5 * 60000 → classify b lastSeen now = PresenceClass.fresh) ∧
      (5 * 60000 ≤ now - t → now - t < 30 * 60000 →
        classify b lastSeen now = PresenceClass.stale) ∧
      (30 * 60000 ≤ now - t → classify b lastSeen now = PresenceClass.offline)) := by
  constructor
  · rintro (rfl | rfl)
    · cases lastSeen with
      | none => rfl
      | some t => simp [classify]
    · rfl
  · rintro t rfl rfl
    refine ⟨fun h => ?_, fun h1 h2 => ?_, fun h => ?_⟩
    · have : (now - t) / 1000 / 60 < 5 := by linarith [hle t rfl]
      simp [classify, this]
    · have hge : ¬ ((now - t) / 1000 / 60 < 5) := by
        push_neg
        linarith
      have hlt : (now - t) / 1000 / 60 < 30 := by linarith
      simp [classify, hge, hlt]
    · have h5 : ¬ ((now - t) / 1000 / 60 < 5) := by
        push_neg
        linarith
      have h30 : ¬ ((now - t) / 1000 / 60 < 30) := by
        push_neg
        linarith
      simp [classify, h5, h30]

/-- Instantiation of `classify_cases`: a device last seen 2 minutes ago with
the online flag set is classified `fresh`, one last seen 10 minutes ago
`stale`, one last seen 40 minutes ago `offline`, and an offline-flagged
device is `offline`. -/
theorem classify_cases_witness :
    classify true (some 0) 120000 = PresenceClass.fresh ∧
    classify true (some 0) 600000 = PresenceClass.stale ∧
    classify true (some 0) 2400000 = PresenceClass.offline ∧
    classify false (some 0) 1000 = PresenceClass.offline := by
  refine ⟨?_, ?_, ?_, ?_⟩
  · exact ((classify_cases true (some 0) 120000
      (by rintro t ⟨rfl⟩; norm_num)).2 0 rfl rfl).1 (by norm_num)
  · exact ((classify_cases true (some 0) 600000
      (by rintro t ⟨rfl⟩; norm_num)).2 0 rfl rfl).2.1 (by norm_num) (by norm_num)
  · exact ((classify_cases true (some 0) 2400000
      (by rintro t ⟨rfl⟩; norm_num)).2 0 rfl rfl).2.2 (by norm_num)
  · exact (classify_cases false (some 0) 1000
      (by rintro t ⟨rfl⟩; norm_num)).1 (Or.inl rfl)

/-- One row of the `devices` table (schema in `src/lib/supabase.js`):
identity, owning user, display name, class, install token, online flag,
nullable last-seen timestamp (milliseconds) and nullable battery
percentage. -/
structure DeviceRow where
  id : String
  user_id : String
  device_name : String
  device_type : String
  device_token : String
  is_online : Bool
  last_seen : Option ℚ
  battery_level : Option ℤ
deriving DecidableEq

/-- Payload of a `location-update` socket event (the fields destructured at
`pages/api/socket.js`): latitude and longitude plus the optional accuracy,
speed, heading, altitude and timestamp fields. -/
structure LocationEvent where
  deviceId : String
  latitude : Option ℚ
  longitude : Option ℚ
  accuracy : Option ℚ
  speed : Option ℚ
  heading : Option ℚ
  altitude : Option ℚ
  timestamp : Option ℚ
deriving DecidableEq

/-- Payload of a `device-status` socket event. -/
structure StatusEvent where
  deviceId : String
  isOnline : Bool
  batteryLevel : Option ℤ
deriving DecidableEq

/-- One row of the `devices_with_users` view: the device joined with its
owner's profile, as returned by the lookup the location handler performs
before broadcasting. -/
structure DeviceInfo where
  id : String
  user_id : String
  device_name : String
  device_type : String
  username : String
deriving DecidableEq

/-- A Socket.IO room: the code uses the room name `global` for all viewers
and a room name built by prefixing `user-` to a user id (string
interpolation in `socket.join` and `io.to`); the prefixing is injective, so
rooms are modelled as this two-constructor type. -/
inductive Room where
  | global
  | user (userId : String)
deriving DecidableEq

/-- The four outbound wire event names emitted by the socket server:
`location-updated`, `device-location-updated`, `device-status-updated` and
`devices-offline-check`. -/
inductive EventName where
  | locationUpdated
  | deviceLocationUpdated
  | deviceStatusUpdated
  | devicesOfflineCheck
deriving DecidableEq

/-- Payload of an outbound event: the location handlers re-emit the
incoming data spread together with the `deviceInfo` lookup result, the
status handler re-emits the incoming data, the sweeper notification
carries no payload. -/
inductive Payload where
  | location (data : LocationEvent) (deviceInfo : Option DeviceInfo)
  | status (data : StatusEvent)
  | offlineCheck
deriving DecidableEq

/-- One emitted broadcast: `io.to(room).emit(event, payload)`. -/
structure Emit where
  room : Room
  event : EventName
  payload : Payload
deriving DecidableEq

/-- Everything observable that one run of a socket handler produces: the
updated `devices` table, the `location_history` rows it inserted, the
broadcasts it emitted, its `console.error` log lines, any reply sent back
to the submitting socket, and whether the handler crashed (escaped its
`try`/`catch`). -/
structure HandlerResult where
  devices : List DeviceRow
  insertedLocations : List LocationEvent
  emits : List Emit
  logs : List String
  replyToCaller : Option String
  crashed : Bool
deriving DecidableEq

/-- The `location-update` handler, `pages/api/socket.js` lines 943-1004.
Storage outcomes are inputs: `locErr` is whether the `location_history`
insert was rejected, `devErr` whether the `devices` update was rejected,
and `infoLookup` is the row the `devices_with_users` lookup returned.  On
`locErr` the handler logs and returns; on `devErr` it logs and returns
(the location row was already inserted); otherwise it updates the device
row, emits `location-updated` to the `global` room and, when the info
lookup succeeded, `device-location-updated` to the owner's `user-` room.
No branch replies to the submitting socket and every branch returns
normally. -/
def locationUpdateHandler (db : List DeviceRow) (now : ℚ)
    (locErr devErr : Bool) (infoLookup : Option DeviceInfo)
    (data : LocationEvent) : HandlerResult :=
  if locErr then
    { devices := db, insertedLocations := [], emits := [],
      logs := ["Error inserting location"], replyToCaller := none, crashed := false }
  else
    let inserted := [{ data with timestamp := some (data.timestamp.getD now) }]
    if devErr then
      { devices := db, insertedLocations := inserted, emits := [],
        logs := ["Error updating device"], replyToCaller := none, crashed := false }
    else
      let db2 := db.map fun d =>
        if d.id = data.deviceId then { d with last_seen := some now, is_online := true } else d
      let emits :=
        Emit.mk Room.global EventName.locationUpdated (Payload.location data infoLookup) ::
        (match infoLookup with
         | some info =>
           [Emit.mk (Room.user info.user_id) EventName.deviceLocationUpdated
             (Payload.location data (some info))]
         | none => [])
      { devices := db2, insertedLocations := inserted, emits := emits,
        logs := [], replyToCaller := none, crashed := false }

/-- The `device-status` handler, `pages/api/socket.js` lines 1007-1027:
update `is_online`, `battery_level`, `last_seen` on the device row; if and
only if the update succeeded, emit `device-status-updated` to `global`.
The error branch does nothing further; nothing replies to the caller and
the `try`/`catch` keeps the connection alive. -/
def deviceStatusHandler (db : List DeviceRow) (now : ℚ)
    (updErr : Bool) (data : StatusEvent) : HandlerResult :=
  if updErr then
    { devices := db, insertedLocations := [], emits := [],
      logs := [], replyToCaller := none, crashed := false }
  else
    let db2 := db.map fun d =>
      if d.id = data.deviceId then
        { d with is_online := data.isOnline, battery_level := data.batteryLevel,
                 last_seen := some now }
      else d
    { devices := db2, insertedLocations := [],
      emits := [Emit.mk Room.global EventName.deviceStatusUpdated (Payload.status data)],
      logs := [], replyToCaller := none, crashed := false }

/-- The sweeper's demotion window: `2 * 60 * 1000` milliseconds. -/
def demotionWindow : ℚ := 2 * 60 * 1000

/-- The filter of the sweeper's update, `pages/api/socket.js` lines
1037-1041: `last_seen < now − 2 minutes` and `is_online = true`.  A null
`last_seen` never satisfies an SQL comparison, hence matches nothing. -/
def sweepMatches (now : ℚ) (d : DeviceRow) : Bool :=
  d.is_online && (match d.last_seen with
    | some t => decide (t < now - demotionWindow)
    | none => false)

/-- One tick of the offline-device checker, `pages/api/socket.js` lines
1035-1050: set `is_online := false` on every matching row; when the update
did not error, emit `devices-offline-check` to the `global` room. -/
def sweepTick (db : List DeviceRow) (now : ℚ) (storageError : Bool) :
    List DeviceRow × List Emit :=
  if storageError then (db, [])
  else
    (db.map fun d => if sweepMatches now d then { d with is_online := false } else d,
     [Emit.mk Room.global EventName.devicesOfflineCheck Payload.offlineCheck])

/-- The list of events actually delivered to one connected session: a
broadcast reaches a session exactly when the session has joined the room
it is addressed to. -/
def delivered (emits : List Emit) (rooms : List Room) : List Emit :=
  emits.filter fun e => decide (e.room ∈ rooms)

/-- A concrete device row for instantiations: online, last report at t = 0. -/
def demoDevice : DeviceRow :=
  { id := "d1", user_id := "u1", device_name := "Phone", device_type := "mobile",
    device_token := "tok1", is_online := true, last_seen := some 0, battery_level := none }

/-- A concrete location event for instantiations. -/
def demoLocation : LocationEvent :=
  { deviceId := "d1", latitude := some 1, longitude := some 2, accuracy := none,
    speed := none, heading := none, altitude := none, timestamp := some 0 }

/-- A concrete status event for instantiations. -/
def demoStatus : StatusEvent :=
  { deviceId := "d1", isOnline := true, batteryLevel := none }

/-- A concrete `devices_with_users` row for instantiations. -/
def demoInfo : DeviceInfo :=
  { id := "d1", user_id := "u1", device_name := "Phone", device_type := "mobile",
    username := "alice" }

/-- C1: a sweeper tick (with the storage update succeeding) keeps the table
length, sets `is_online := false` on exactly the rows with the online flag
set and a last-seen strictly older than now − demotionWindow while leaving
every other row unchanged, and emits the `devices-offline-check`
notification to the `global` room whenever at least one device was
demoted. -/
theorem sweepTick_demotes_and_broadcasts (db : List DeviceRow) (now : ℚ) :
    ((sweepTick db now false).1.length = db.length) ∧
    (∀ (i : ℕ) (d : DeviceRow), db[i]? = some d →
      (sweepMatches now d = true →
        (sweepTick db now false).1[i]? = some { d with is_online := false }) ∧
      (sweepMatches now d = false →
        (sweepTick db now false).1[i]? = some d)) ∧
    ((∃ d ∈ db, sweepMatches now d = true) →
      Emit.mk Room.global EventName.devicesOfflineCheck Payload.offlineCheck ∈
        (sweepTick db now false).2) ∧
    (∀ d : DeviceRow, sweepMatches now d = true ↔
      (d.is_online = true ∧ ∃ t, d.last_seen = some t ∧ t < now - demotionWindow)) := by
  refine ⟨by simp [sweepTick], ?_, ?_, ?_⟩
  · intro i d hd
    constructor
    · intro hm
      simp [sweepTick, List.getElem?_map, hd, hm]
    · intro hm
      simp [sweepTick, List.getElem?_map, hd, hm]
  · intro _
    simp [sweepTick]
  · intro d
    cases hls : d.last_seen with
    | none => simp [sweepMatches, hls]
    | some t => simp [sweepMatches, hls]

/-- Instantiation of `sweepTick_demotes_and_broadcasts`: a device whose last
report was at t = 0 is demoted by the tick at t = 3 minutes (window
2 minutes) and the `devices-offline-check` broadcast is sent to `global`. -/
theorem sweepTick_demotes_and_broadcasts_witness :
    (sweepTick [demoDevice] 180000 false).1[0]? =
      some { demoDevice with is_online := false } ∧
    Emit.mk Room.global EventName.devicesOfflineCheck Payload.offlineCheck ∈
      (sweepTick [demoDevice] 180000 false).2 := by
  have hmatch : sweepMatches 180000 demoDevice = true := by
    norm_num [sweepMatches, demoDevice, demotionWindow]
  have h := sweepTick_demotes_and_broadcasts [demoDevice] 180000
  exact ⟨(h.2.1 0 demoDevice rfl).1 hmatch, h.2.2.1 ⟨demoDevice, by simp, hmatch⟩⟩

/-- C3 counterexample: on a rejected storage write the handlers do abort
before broadcasting, but nothing is ever sent back to the submitting
socket — the error is only logged — so the claim's "surfaces a storage
error to the caller" is false at this concrete failing input. -/
theorem storageFailure_nothing_surfaced_to_caller :
    (locationUpdateHandler [demoDevice] 0 true false none demoLocation).emits = [] ∧
    (locationUpdateHandler [demoDevice] 0 true false none demoLocation).replyToCaller = none ∧
    (deviceStatusHandler [demoDevice] 0 true demoStatus).replyToCaller = none :=
  ⟨rfl, rfl, rfl⟩

/-- C3 as amended: for every `location-update` event whose location insert
or device update is rejected and every `device-status` event whose device
update is rejected, the handler emits no broadcast, does not crash the
connection, and surfaces nothing to the caller (the location handler only
writes a log line). -/
theorem storageFailure_aborts_before_broadcast (db : List DeviceRow) (now : ℚ)
    (devErr : Bool) (info : Option DeviceInfo) (data : LocationEvent)
    (sdata : StatusEvent) :
    ((locationUpdateHandler db now true devErr info data).emits = [] ∧
     (locationUpdateHandler db now true devErr info data).crashed = false ∧
     (locationUpdateHandler db now true devErr info data).replyToCaller = none ∧
     (locationUpdateHandler db now true devErr info data).logs ≠ []) ∧
    ((locationUpdateHandler db now false true info data).emits = [] ∧
     (locationUpdateHandler db now false true info data).crashed = false ∧
     (locationUpdateHandler db now false true info data).replyToCaller = none ∧
     (locationUpdateHandler db now false true info data).logs ≠ []) ∧
    ((deviceStatusHandler db now true sdata).emits = [] ∧
     (deviceStatusHandler db now true sdata).crashed = false ∧
     (deviceStatusHandler db now true sdata).replyToCaller = none) := by
  refine ⟨⟨rfl, rfl, rfl, by simp [locationUpdateHandler]⟩,
          ⟨rfl, rfl, rfl, by simp [locationUpdateHandler]⟩,
          rfl, rfl, rfl⟩

/-- C5: an accepted location event for a device owned by user U (both
storage writes succeed and the owner lookup returns U's row) is broadcast
enriched with the device metadata both to the `global` room and to the
`user-U` room; any session in the `global` room receives the global copy,
and a session that joined only `user-V` for V ≠ U receives nothing. -/
theorem locationUpdate_fanout (db : List DeviceRow) (now : ℚ)
    (data : LocationEvent) (info : DeviceInfo) (V : String)
    (hV : V ≠ info.user_id) :
    (Emit.mk Room.global EventName.locationUpdated (Payload.location data (some info)) ∈
      (locationUpdateHandler db now false false (some info) data).emits) ∧
    (Emit.mk (Room.user info.user_id) EventName.deviceLocationUpdated
        (Payload.location data (some info)) ∈
      (locationUpdateHandler db now false false (some info) data).emits) ∧
    (∀ rooms : List Room, Room.global ∈ rooms →
      Emit.mk Room.global EventName.locationUpdated (Payload.location data (some info)) ∈
        delivered (locationUpdateHandler db now false false (some info) data).emits rooms) ∧
    delivered (locationUpdateHandler db now false false (some info) data).emits
      [Room.user V] = [] := by
  refine ⟨by simp [locationUpdateHandler], by simp [locationUpdateHandler], ?_, ?_⟩
  · intro rooms hg
    simp [locationUpdateHandler, delivered, hg]
  · simp [locationUpdateHandler, delivered, Ne.symm hV]

/-- Instantiation of `locationUpdate_fanout` at a concrete event owned by
user u1 and a session joined only to the room of user u2. -/
theorem locationUpdate_fanout_witness :
    (Emit.mk Room.global EventName.locationUpdated
        (Payload.location demoLocation (some demoInfo)) ∈
      (locationUpdateHandler [demoDevice] 0 false false (some demoInfo) demoLocation).emits) ∧
    delivered (locationUpdateHandler [demoDevice] 0 false false (some demoInfo)
        demoLocation).emits [Room.user "u2"] = [] := by
  have h := locationUpdate_fanout [demoDevice] 0 demoLocation demoInfo "u2"
    (by simp [demoInfo])
  exact ⟨h.1, h.2.2.2⟩

/-- Lookup of `checkAndCreateDevice`, `pages/index.js` lines 262-267:
select from `devices` where `device_token` equals the install UUID and
`user_id` equals the signed-in user. -/
def findDevices (db : List DeviceRow) (userId token : String) : List DeviceRow :=
  db.filter fun d => d.device_token == token && d.user_id == userId

/-- JavaScript `String.prototype.trim()`: strip leading and trailing
whitespace. -/
def jsTrim (s : String) : String :=
  String.mk (((s.data.dropWhile Char.isWhitespace).reverse.dropWhile
    Char.isWhitespace).reverse)

/-- The row inserted by `saveDeviceName`, `pages/index.js` lines 308-318:
trimmed name, type `mobile`, the install token, online flag set; the
database supplies the fresh id. -/
def newDevice (freshId userId name token : String) : DeviceRow :=
  { id := freshId, user_id := userId, device_name := jsTrim name,
    device_type := "mobile", device_token := token, is_online := true,
    last_seen := none, battery_level := none }

/-- The device registration flow: `checkAndCreateDevice` looks the pair
`(userId, installToken)` up first; a found device is reused as is; only
when nothing is found does the flow continue to `saveDeviceName`, which
refuses an empty (trimmed) name and otherwise inserts exactly one new row.
Returns the resulting `devices` table and the identity of the device the
flow settled on. -/
def registerFlow (db : List DeviceRow) (userId token name freshId : String) :
    List DeviceRow × Option String :=
  match findDevices db userId token with
  | existing :: _ => (db, some existing.id)
  | [] =>
    if jsTrim name = "" then (db, none)
    else (db ++ [newDevice freshId userId name token], some freshId)

/-- C6: the registration flow is idempotent per `(ownerId, installToken)`
pair — the lookup runs before any create and an existing match is reused,
so a second run returns the same device identity, changes nothing, and the
pair never ends up with more than one row. -/
theorem registerFlow_idempotent (db : List DeviceRow)
    (userId token name1 name2 freshId1 freshId2 : String)
    (hname : jsTrim name1 ≠ "") :
    ((registerFlow (registerFlow db userId token name1 freshId1).1
        userId token name2 freshId2).2 =
      (registerFlow db userId token name1 freshId1).2) ∧
    ((registerFlow (registerFlow db userId token name1 freshId1).1
        userId token name2 freshId2).1 =
      (registerFlow db userId token name1 freshId1).1) ∧
    (∀ d rest, findDevices db userId token = d :: rest →
      registerFlow db userId token name1 freshId1 = (db, some d.id)) ∧
    (findDevices db userId token = [] →
      (findDevices (registerFlow db userId token name1 freshId1).1
        userId token).length = 1) := by
  have hreuse : ∀ d rest, findDevices db userId token = d :: rest →
      registerFlow db userId token name1 freshId1 = (db, some d.id) := by
    intro d rest h
    simp [registerFlow, h]
  cases hfd : findDevices db userId token with
  | cons d rest =>
    refine ⟨?_, ?_, ?_, ?_⟩
    · simp [registerFlow, hfd]
    · simp [registerFlow, hfd]
    · intro a as ha
      cases ha
      exact hreuse d rest hfd
    · intro h
      simp at h
  | nil =>
    have hr1 : registerFlow db userId token name1 freshId1 =
        (db ++ [newDevice freshId1 userId name1 token], some freshId1) := by
      simp [registerFlow, hfd, hname]
    have hnew : findDevices (db ++ [newDevice freshId1 userId name1 token])
        userId token = [newDevice freshId1 userId name1 token] := by
      unfold findDevices at hfd ⊢
      rw [List.filter_append, hfd]
      simp [newDevice]
    simp only [newDevice] at hnew
    refine ⟨?_, ?_, ?_, ?_⟩
    · rw [hr1]
      simp [registerFlow, hnew, newDevice]
    · rw [hr1]
      simp [registerFlow, hnew, newDevice]
    · intro a as ha
      simp at ha
    · intro _
      rw [hr1]
      simp only [newDevice] at hr1 ⊢
      rw [hnew]
      rfl


/-- Instantiation of `registerFlow_idempotent`: registering `(u1, tok1)`
twice on an initially empty table returns the identity of the first run's
row both times, and exactly one row for the pair exists afterwards. -/
theorem registerFlow_idempotent_witness :
    ((registerFlow (registerFlow [] "u1" "tok1" "Phone" "id1").1
        "u1" "tok1" "Phone" "id2").2 =
      (registerFlow [] "u1" "tok1" "Phone" "id1").2) ∧
    ((findDevices (registerFlow [] "u1" "tok1" "Phone" "id1").1
        "u1" "tok1").length = 1) := by
  have h := registerFlow_idempotent [] "u1" "tok1" "Phone" "Phone" "id1" "id2"
    (by decide)
  exact ⟨h.1, h.2.2.2 rfl⟩

/-- One element of the viewer's in-memory `allDeviceLocations` list.  The
entries assembled by the `location-updated` socket handler and by
`getCurrentLocationAndDisplay` populate different subsets of these fields,
so each field the two writers do not both set is optional. -/
structure LocEntry where
  device_id : String
  latitude : Option ℚ
  longitude : Option ℚ
  timestamp : Option ℚ
  device_name : Option String
  device_type : Option String
  username : Option String
  is_online : Option Bool
  accuracy : Option ℚ
  speed : Option ℚ
deriving DecidableEq

/-- The entry the `location-updated` socket handler builds,
`pages/index.js` lines 154-160: the raw event fields re-keyed to
`device_id`, plus the spread of the (possibly absent) `deviceInfo`. -/
def entryOfBroadcast (data : LocationEvent) (info : Option DeviceInfo) : LocEntry :=
  { device_id := data.deviceId, latitude := data.latitude,
    longitude := data.longitude, timestamp := data.timestamp,
    device_name := info.map DeviceInfo.device_name,
    device_type := info.map DeviceInfo.device_type,
    username := info.map DeviceInfo.username,
    is_online := none, accuracy := none, speed := none }

/-- The `location-updated` handler's list update, `pages/index.js` lines
151-162: drop every entry for the reporting device, then append the new
entry. -/
def applyLocationUpdated (prev : List LocEntry) (data : LocationEvent)
    (info : Option DeviceInfo) : List LocEntry :=
  (prev.filter fun loc => loc.device_id != data.deviceId) ++ [entryOfBroadcast data info]

/-- The entry built from a local position fix in
`getCurrentLocationAndDisplay`, `pages/index.js` lines 365-376. -/
def entryOfLocalFix (device : DeviceRow) (email : String) (lat lng : ℚ)
    (accuracy speed : Option ℚ) (now : ℚ) : LocEntry :=
  { device_id := device.id, latitude := some lat, longitude := some lng,
    timestamp := some now, device_name := some device.device_name,
    device_type := some device.device_type, username := some email,
    is_online := some true, accuracy := accuracy, speed := speed }

/-- The local-fix list update, `pages/index.js` lines 380-385: drop every
entry for this device, then append the fresh entry. -/
def applyLocalFix (prev : List LocEntry) (device : DeviceRow) (email : String)
    (lat lng : ℚ) (accuracy speed : Option ℚ) (now : ℚ) : List LocEntry :=
  (prev.filter fun loc => loc.device_id != device.id) ++
    [entryOfLocalFix device email lat lng accuracy speed now]

/-- Number of entries of the list carrying a given device id. -/
def countDevice (l : List LocEntry) (id : String) : ℕ :=
  (l.filter fun loc => loc.device_id == id).length

/-- The list has at most one entry per device id. -/
def atMostOnePerDevice (l : List LocEntry) : Prop :=
  ∀ id : String, countDevice l id ≤ 1

lemma filterNe_append_single_atMostOne (prev : List LocEntry) (e : LocEntry)
    (h : atMostOnePerDevice prev) :
    atMostOnePerDevice ((prev.filter fun loc => loc.device_id != e.device_id) ++ [e]) := by
  intro k
  unfold countDevice
  rw [List.filter_append, List.length_append]
  by_cases hk : k = e.device_id
  · have h0 : ((prev.filter fun loc => loc.device_id != e.device_id).filter
        fun loc => loc.device_id == k) = [] := by
      rw [List.filter_eq_nil_iff]
      intro a ha
      have hne := (List.mem_filter.mp ha).2
      simp only [bne_iff_ne, ne_eq] at hne
      simp [hk, hne]
    rw [h0]
    simp [hk]
  · have h1 : ([e].filter fun loc => loc.device_id == k) = [] := by
      simp [Ne.symm hk]
    rw [h1]
    have hsub : List.Sublist
        (prev.filter fun loc => loc.device_id != e.device_id) prev :=
      List.filter_sublist prev
    have h2 : ((prev.filter fun loc => loc.device_id != e.device_id).filter
          fun loc => loc.device_id == k).length ≤
        (prev.filter fun loc => loc.device_id == k).length :=
      (hsub.filter fun loc => loc.device_id == k).length_le
    simpa using le_trans h2 (h k)

/-- C9: neither list writer can introduce a duplicate device id — if the
viewer's device-location list has at most one entry per device id, it
still does after the `location-updated` handler runs and after a local
position fix is folded in, because both writers first remove every entry
for the device being written. -/
theorem deviceList_no_duplicates (prev : List LocEntry) (data : LocationEvent)
    (info : Option DeviceInfo) (device : DeviceRow) (email : String)
    (lat lng : ℚ) (accuracy speed : Option ℚ) (now : ℚ)
    (h : atMostOnePerDevice prev) :
    atMostOnePerDevice (applyLocationUpdated prev data info) ∧
    atMostOnePerDevice (applyLocalFix prev device email lat lng accuracy speed now) :=
  ⟨filterNe_append_single_atMostOne prev (entryOfBroadcast data info) h,
   filterNe_append_single_atMostOne prev
     (entryOfLocalFix device email lat lng accuracy speed now) h⟩

/-- Instantiation of `deviceList_no_duplicates` on a two-entry list that
already contains the reporting device. -/
theorem deviceList_no_duplicates_witness :
    atMostOnePerDevice (applyLocationUpdated [] demoLocation (some demoInfo)) :=
  (deviceList_no_duplicates [] demoLocation (some demoInfo) demoDevice
    "alice" 1 2 none none 0 (fun id => by simp [countDevice])).1

/-- JavaScript `Math.round`: round half up. -/
def jsRound (q : ℚ) : ℤ := ⌊q + 1 / 2⌋

/-- The value computed inside the `navigator.getBattery().then` callback of
`getBatteryLevel`, `pages/index.js` line 499: `Math.round(battery.level *
100)`.  It is returned into the promise chain, which nobody consumes. -/
def batteryPromiseResult (level : ℚ) : ℤ := jsRound (level * 100)

/-- Function `getBatteryLevel`, `pages/index.js` lines 496-503.  When the battery
API exists the asynchronous read is started and its result discarded; the
function itself falls through to `return null` on every path. -/
def getBatteryLevel (hasGetBattery : Bool) (level : ℚ) : Option ℤ :=
  if hasGetBattery then
    let _discarded := batteryPromiseResult level
    none
  else
    none

/-- The `device-status` event emitted by `updateDeviceStatus`,
`pages/index.js` lines 470-494 (its direct `devices` update only touches
`is_online` and `last_seen`): `isOnline` is the conjunction of the
requested status and `navigator.onLine`, `batteryLevel` is whatever
`getBatteryLevel()` returned.  Nothing is emitted without a current
device. -/
def updateDeviceStatusEvent (currentDevice : Option DeviceRow)
    (isOnlineStatus isOnlineNav hasGetBattery : Bool) (level : ℚ) :
    Option StatusEvent :=
  match currentDevice with
  | none => none
  | some dev =>
    some { deviceId := dev.id, isOnline := isOnlineStatus && isOnlineNav,
           batteryLevel := getBatteryLevel hasGetBattery level }

/-- C10: `getBatteryLevel` returns null on every call, so every
`device-status` event this client emits carries a null battery level, and
the server-side status handler therefore never stores a non-null battery
percentage on the device row it updates for such an event. -/
theorem batteryLevel_always_null :
    (∀ (hasGetBattery : Bool) (level : ℚ),
      getBatteryLevel hasGetBattery level = none) ∧
    (∀ (cd : Option DeviceRow) (s n hg : Bool) (level : ℚ) (ev : StatusEvent),
      updateDeviceStatusEvent cd s n hg level = some ev →
      ev.batteryLevel = none) ∧
    (∀ (db : List DeviceRow) (now : ℚ) (cd : Option DeviceRow) (s n hg : Bool)
       (level : ℚ) (ev : StatusEvent) (d : DeviceRow),
      updateDeviceStatusEvent cd s n hg level = some ev →
      d ∈ (deviceStatusHandler db now false ev).devices →
      d.id = ev.deviceId → d.battery_level = none) := by
  have hnull : ∀ (hg : Bool) (level : ℚ), getBatteryLevel hg level = none := by
    intro hg level
    cases hg <;> rfl
  refine ⟨hnull, ?_, ?_⟩
  · intro cd s n hg level ev hev
    cases cd with
    | none => cases hev
    | some dev =>
      simp [updateDeviceStatusEvent] at hev
      rw [← hev]
      exact hnull hg level
  · intro db now cd s n hg level ev d hev hd hid
    have hbl : ev.batteryLevel = none := by
      cases cd with
      | none => cases hev
      | some dev =>
        simp [updateDeviceStatusEvent] at hev
        rw [← hev]
        exact hnull hg level
    simp only [deviceStatusHandler, Bool.false_eq_true, if_false, List.mem_map] at hd
    obtain ⟨a, ha, rfl⟩ := hd
    by_cases hcase : a.id = ev.deviceId
    · simp [hcase, hbl]
    · simp only [if_neg hcase] at hid
      exact absurd hid hcase

/-- The row the status handler stores for `demoStatus` at time 0. -/
def demoStoredRow : DeviceRow :=
  { demoDevice with is_online := true, battery_level := none, last_seen := some 0 }

/-- Instantiation of `batteryLevel_always_null` at a concrete call with the
battery API present and a 37% battery: the returned level is null, the
emitted event's level is null, and the stored row keeps a null battery. -/
theorem batteryLevel_always_null_witness :
    getBatteryLevel true 37 = none ∧
    demoStatus.batteryLevel = none ∧
    demoStoredRow.battery_level = none := by
  have hev : updateDeviceStatusEvent (some demoDevice) true true true 37 =
      some demoStatus := rfl
  refine ⟨batteryLevel_always_null.1 true 37,
    batteryLevel_always_null.2.1 (some demoDevice) true true true 37 demoStatus hev,
    batteryLevel_always_null.2.2 [demoDevice] 0 (some demoDevice) true true true 37
      demoStatus demoStoredRow hev ?_ rfl⟩
  simp [deviceStatusHandler, demoDevice, demoStatus, demoStoredRow]

/-- JavaScript `Math.atan2(y, x)` (C library convention). -/
noncomputable def atan2 (y x : ℝ) : ℝ :=
  if 0 < x then Real.arctan (y / x)
  else if x < 0 ∧ 0 ≤ y then Real.arctan (y / x) + Real.pi
  else if x < 0 ∧ y < 0 then Real.arctan (y / x) - Real.pi
  else if x = 0 ∧ 0 < y then Real.pi / 2
  else if x = 0 ∧ y < 0 then -(Real.pi / 2)
  else 0

/-- Function `calculateDistance`, `pages/index.js` lines 505-518 (the identical
inline haversine lives in `MapComponent.js` lines 338-349): great-circle
distance in metres via the haversine formula with Earth radius
6 371 000 m. -/
noncomputable def calculateDistance (lat1 lon1 lat2 lon2 : ℝ) : ℝ :=
  let R : ℝ := 6371000
  let phi1 := lat1 * Real.pi / 180
  let phi2 := lat2 * Real.pi / 180
  let dphi := (lat2 - lat1) * Real.pi / 180
  let dlam := (lon2 - lon1) * Real.pi / 180
  let a := Real.sin (dphi / 2) * Real.sin (dphi / 2) +
    Real.cos phi1 * Real.cos phi2 * Real.sin (dlam / 2) * Real.sin (dlam / 2)
  let c := 2 * atan2 (Real.sqrt a) (Real.sqrt (1 - a))
  R * c

/-- C7: the haversine distance is symmetric in its two endpoints, and the
distance of any valid point to itself is exactly 0. -/
theorem calculateDistance_symm_self (lat1 lon1 lat2 lon2 : ℝ)
    (hlat1 : -90 ≤ lat1 ∧ lat1 ≤ 90) (hlon1 : -180 ≤ lon1 ∧ lon1 ≤ 180)
    (hlat2 : -90 ≤ lat2 ∧ lat2 ≤ 90) (hlon2 : -180 ≤ lon2 ∧ lon2 ≤ 180) :
    calculateDistance lat1 lon1 lat2 lon2 = calculateDistance lat2 lon2 lat1 lon1 ∧
    calculateDistance lat1 lon1 lat1 lon1 = 0 := by
  constructor
  · have hA : ∀ la1 lo1 la2 lo2 : ℝ,
        Real.sin ((la1 - la2) * Real.pi / 180 / 2) *
            Real.sin ((la1 - la2) * Real.pi / 180 / 2) +
          Real.cos (la2 * Real.pi / 180) * Real.cos (la1 * Real.pi / 180) *
            Real.sin ((lo1 - lo2) * Real.pi / 180 / 2) *
            Real.sin ((lo1 - lo2) * Real.pi / 180 / 2) =
        Real.sin ((la2 - la1) * Real.pi / 180 / 2) *
            Real.sin ((la2 - la1) * Real.pi / 180 / 2) +
          Real.cos (la1 * Real.pi / 180) * Real.cos (la2 * Real.pi / 180) *
            Real.sin ((lo2 - lo1) * Real.pi / 180 / 2) *
            Real.sin ((lo2 - lo1) * Real.pi / 180 / 2) := by
      intro la1 lo1 la2 lo2
      rw [show (la1 - la2) * Real.pi / 180 / 2 = -((la2 - la1) * Real.pi / 180 / 2) by
            ring,
          show (lo1 - lo2) * Real.pi / 180 / 2 = -((lo2 - lo1) * Real.pi / 180 / 2) by
            ring,
          Real.sin_neg, Real.sin_neg]
      ring
    simp only [calculateDistance]
    rw [hA lat2 lon2 lat1 lon1]
  · simp only [calculateDistance, sub_self, zero_mul, zero_div, Real.sin_zero,
      mul_zero, zero_add, add_zero, Real.sqrt_zero, sub_zero, Real.sqrt_one]
    have hz : atan2 0 1 = 0 := by
      simp [atan2, Real.arctan_zero]
    rw [hz]
    ring

/-- Instantiation of `calculateDistance_symm_self` at the valid points
(10, 20) and (30, 40). -/
theorem calculateDistance_symm_self_witness :
    calculateDistance 10 20 30 40 = calculateDistance 30 40 10 20 ∧
    calculateDistance 10 20 10 20 = 0 :=
  calculateDistance_symm_self 10 20 30 40 (by norm_num) (by norm_num)
    (by norm_num) (by norm_num)

/-- C8: the haversine distance between (0,0) and (0,90) — a quarter of the
Earth's circumference — is 10 007 543 m up to 0.1% relative tolerance. -/
theorem calculateDistance_quarter_circumference :
    |calculateDistance 0 0 0 90 - 10007543| ≤ 10007543 / 1000 := by
  have h1 : ((0 : ℝ) - 0) * Real.pi / 180 / 2 = 0 := by ring
  have h2 : ((90 : ℝ) - 0) * Real.pi / 180 / 2 = Real.pi / 4 := by ring
  have h3 : (0 : ℝ) * Real.pi / 180 = 0 := by ring
  have hval : calculateDistance 0 0 0 90 = 6371000 * (2 * (Real.pi / 4)) := by
    simp only [calculateDistance]
    rw [h1, h2, h3, Real.sin_zero, Real.cos_zero, Real.sin_pi_div_four]
    have ha : (0 : ℝ) * 0 + 1 * 1 * (Real.sqrt 2 / 2) * (Real.sqrt 2 / 2) = 1 / 2 := by
      have hs : Real.sqrt 2 * Real.sqrt 2 = 2 :=
        Real.mul_self_sqrt (by norm_num)
      linear_combination hs / 4
    rw [ha]
    have h12 : (1 : ℝ) - 1 / 2 = 1 / 2 := by norm_num
    rw [h12]
    have hpos : 0 < Real.sqrt (1 / 2) := Real.sqrt_pos.mpr (by norm_num)
    have hat : atan2 (Real.sqrt (1 / 2)) (Real.sqrt (1 / 2)) = Real.pi / 4 := by
      simp only [atan2, if_pos hpos]
      rw [div_self (ne_of_gt hpos), Real.arctan_one]
    rw [hat]
  rw [hval, abs_le]
  constructor <;> nlinarith [Real.pi_gt_d6, Real.pi_lt_d6]

/-- Truthiness of a stored coordinate as tested by
`d.latitude && d.longitude`: present and nonzero. -/
def coordTruthy : Option ℚ → Bool
  | none => false
  | some q => q != 0

/-- The `validDevices` filter of `showBothDevices`, `MapComponent.js`
lines 313-315: the device id is among the requested ids and both
coordinates are truthy. -/
def validFor (deviceIds : List String) (d : LocEntry) : Bool :=
  decide (d.device_id ∈ deviceIds) && coordTruthy d.latitude && coordTruthy d.longitude

/-- What `showBothDevices` asks of the Leaflet map. -/
inductive MapAction where
  | keep
  | setView (lat lng : ℝ) (zoom : ℕ)
  | fitBounds (points : List (ℝ × ℝ)) (padding : ℕ × ℕ) (maxZoom : ℕ)

/-- The zoom-ceiling/padding step function of `showBothDevices`,
`MapComponent.js` lines 356-380: six distance bands, returned as
`(maxZoom, padding)` where padding is the `[p, p]` pair passed to
`fitBounds`. -/
noncomputable def zoomPadding (distance : ℝ) : ℕ × (ℕ × ℕ) :=
  if distance < 50 then (18, (10, 10))
  else if distance < 200 then (17, (15, 15))
  else if distance < 1000 then (15, (20, 20))
  else if distance < 5000 then (13, (30, 30))
  else if distance < 25000 then (11, (40, 40))
  else (9, (50, 50))

/-- Function `showBothDevices`, `MapComponent.js` lines 306-389: with no requested
ids or no valid device, keep the current view; with one valid device,
centre on it at zoom 16; with two or more, fit the bounds of all valid
devices with the padding and zoom ceiling derived by `zoomPadding` from
the haversine distance of the first two valid devices. -/
noncomputable def showBothDevices (devices : List LocEntry)
    (deviceIds : List String) : MapAction :=
  if deviceIds.isEmpty then MapAction.keep
  else
    match devices.filter (validFor deviceIds) with
    | [] => MapAction.keep
    | [d] =>
      MapAction.setView ((d.latitude.getD 0 : ℚ) : ℝ) ((d.longitude.getD 0 : ℚ) : ℝ) 16
    | d1 :: d2 :: rest =>
      let pts := (d1 :: d2 :: rest).map fun d =>
        (((d.latitude.getD 0 : ℚ) : ℝ), ((d.longitude.getD 0 : ℚ) : ℝ))
      let dist := calculateDistance
        ((d1.latitude.getD 0 : ℚ) : ℝ) ((d1.longitude.getD 0 : ℚ) : ℝ)
        ((d2.latitude.getD 0 : ℚ) : ℝ) ((d2.longitude.getD 0 : ℚ) : ℝ)
      MapAction.fitBounds pts (zoomPadding dist).2 (zoomPadding dist).1

/-- C4: with two or more valid devices, `showBothDevices` fits the bounds
using the zoom ceiling and padding that `zoomPadding` computes from the
pairwise distance of the first two devices supplied; `zoomPadding` takes
the six tabulated values on the six distance bands, its zoom ceiling is
monotonically non-increasing in the distance and its padding monotonically
non-decreasing. -/
theorem showBothDevices_viewport (devices : List LocEntry)
    (deviceIds : List String) (d1 d2 : LocEntry) (rest : List LocEntry)
    (hne : deviceIds ≠ [])
    (hfilter : devices.filter (validFor deviceIds) = d1 :: d2 :: rest) :
    (showBothDevices devices deviceIds = MapAction.fitBounds
      ((d1 :: d2 :: rest).map fun d =>
        (((d.latitude.getD 0 : ℚ) : ℝ), ((d.longitude.getD 0 : ℚ) : ℝ)))
      (zoomPadding (calculateDistance
        ((d1.latitude.getD 0 : ℚ) : ℝ) ((d1.longitude.getD 0 : ℚ) : ℝ)
        ((d2.latitude.getD 0 : ℚ) : ℝ) ((d2.longitude.getD 0 : ℚ) : ℝ))).2
      (zoomPadding (calculateDistance
        ((d1.latitude.getD 0 : ℚ) : ℝ) ((d1.longitude.getD 0 : ℚ) : ℝ)
        ((d2.latitude.getD 0 : ℚ) : ℝ) ((d2.longitude.getD 0 : ℚ) : ℝ))).1) ∧
    (∀ dist : ℝ,
      (dist < 50 → zoomPadding dist = (18, (10, 10))) ∧
      (50 ≤ dist → dist < 200 → zoomPadding dist = (17, (15, 15))) ∧
      (200 ≤ dist → dist < 1000 → zoomPadding dist = (15, (20, 20))) ∧
      (1000 ≤ dist → dist < 5000 → zoomPadding dist = (13, (30, 30))) ∧
      (5000 ≤ dist → dist < 25000 → zoomPadding dist = (11, (40, 40))) ∧
      (25000 ≤ dist → zoomPadding dist = (9, (50, 50)))) ∧
    (∀ dist1 dist2 : ℝ, dist1 ≤ dist2 →
      (zoomPadding dist2).1 ≤ (zoomPadding dist1).1 ∧
      (zoomPadding dist1).2.1 ≤ (zoomPadding dist2).2.1) := by
  refine ⟨?_, ?_, ?_⟩
  · have hne2 : deviceIds.isEmpty = false := by
      cases deviceIds with
      | nil => exact absurd rfl hne
      | cons a as => rfl
    simp only [showBothDevices, hne2, Bool.false_eq_true, if_false, hfilter]
  · intro dist
    refine ⟨fun h => ?_, fun h1 h2 => ?_, fun h1 h2 => ?_, fun h1 h2 => ?_,
      fun h1 h2 => ?_, fun h1 => ?_⟩
    · unfold zoomPadding
      rw [if_pos h]
    · unfold zoomPadding
      rw [if_neg (not_lt.mpr h1), if_pos h2]
    · unfold zoomPadding
      rw [if_neg (not_lt.mpr (by linarith)), if_neg (not_lt.mpr h1), if_pos h2]
    · unfold zoomPadding
      rw [if_neg (not_lt.mpr (by linarith)), if_neg (not_lt.mpr (by linarith)),
        if_neg (not_lt.mpr h1), if_pos h2]
    · unfold zoomPadding
      rw [if_neg (not_lt.mpr (by linarith)), if_neg (not_lt.mpr (by linarith)),
        if_neg (not_lt.mpr (by linarith)), if_neg (not_lt.mpr h1), if_pos h2]
    · unfold zoomPadding
      rw [if_neg (not_lt.mpr (by linarith)), if_neg (not_lt.mpr (by linarith)),
        if_neg (not_lt.mpr (by linarith)), if_neg (not_lt.mpr (by linarith)),
        if_neg (not_lt.mpr h1)]
  · intro dist1 dist2 hle
    unfold zoomPadding
    split_ifs
    all_goals constructor
    all_goals try norm_num
    all_goals exfalso
    all_goals linarith

/-- A concrete valid device-location entry at (1, 2). -/
def locEntryA : LocEntry :=
  { device_id := "d1", latitude := some 1, longitude := some 2,
    timestamp := none, device_name := none, device_type := none,
    username := none, is_online := none, accuracy := none, speed := none }

/-- A concrete valid device-location entry at (3, 4). -/
def locEntryB : LocEntry :=
  { locEntryA with device_id := "d2", latitude := some 3, longitude := some 4 }

/-- Instantiation of `showBothDevices_viewport`: two valid devices produce
a `fitBounds` with the step-function parameters of their distance, and the
step function returns (18, 10) at 30 m and (11, 40) at 10 000 m. -/
theorem showBothDevices_viewport_witness :
    (showBothDevices [locEntryA, locEntryB] ["d1", "d2"] = MapAction.fitBounds
      ([locEntryA, locEntryB].map fun d =>
        (((d.latitude.getD 0 : ℚ) : ℝ), ((d.longitude.getD 0 : ℚ) : ℝ)))
      (zoomPadding (calculateDistance 1 2 3 4)).2
      (zoomPadding (calculateDistance 1 2 3 4)).1) ∧
    zoomPadding 30 = (18, (10, 10)) ∧
    zoomPadding 10000 = (11, (40, 40)) := by
  have hfilter : [locEntryA, locEntryB].filter (validFor ["d1", "d2"]) =
      locEntryA :: locEntryB :: ([] : List LocEntry) := by
    simp [validFor, coordTruthy, locEntryA, locEntryB]
  have h := showBothDevices_viewport [locEntryA, locEntryB] ["d1", "d2"]
    locEntryA locEntryB [] (by simp) hfilter
  refine ⟨?_, (h.2.1 30).1 (by norm_num),
    ((h.2.1 10000).2.2.2.2.1 (by norm_num) (by norm_num))⟩
  have h1 := h.1
  simpa [locEntryA, locEntryB] using h1

end FindMyJowa
